import Mathlib

/-!
Shallow embedding of the gCite backend pipeline (search → filter → rank →
format).  Python dicts carrying chunk data are modelled as a `Chunk`
structure whose optional fields mirror the optional dict keys; floating
point scores are modelled as rationals; every external call (the
generative adapter, JSON parsing of a model response) is modelled by an
explicit outcome value passed in as an argument, so each code path of the
source is a branch of a total Lean function.
-/

namespace GCite

/-- A chunk dict as it flows through the pipeline.  Field names follow the
dict keys used in the source; a `none` models an absent key.  `title` and
`citation` model `metadata.get('title', 'Unknown')` / `metadata.get('citation', '')`
reads (`backend/api/routes.py` lines 62-68 build these dicts). -/
structure Chunk where
  chunk_id : String := ""
  text : String := ""
  title : String := "Unknown"
  citation : String := ""
  score : Option ℚ := none
  relevance_score : Option ℚ := none
  agent_filtered : Option Bool := none
  agent_rank : Option Nat := none
  filter_reasoning : Option String := none
  rank_reasoning : Option String := none
deriving DecidableEq, Repr

/-- Outcome of the external generative call made inside
`BaseAgent.generate_content` (`backend/agents/base.py` lines 58-70):
either the call (or the `.text` access) raises, or it yields a text. -/
inductive GenOutcome where
  | raises
  | text (s : String)
deriving DecidableEq, Repr

/-- BaseAgent.generate_content (`backend/agents/base.py` lines 37-70):
returns `none` when the agent is disabled (no API key) or when the call
raises; otherwise passes the returned text through. -/
def BaseAgent.generate_content (enabled : Bool) (call : GenOutcome) : Option String :=
  if !enabled then none
  else
    match call with
    | .raises => none
    | .text s => some s

/-- Python truthiness test `if not response_text` applied by every caller
of `generate_content` to an `Optional[str]`. -/
def isFalsy (r : Option String) : Bool :=
  r = none || r = some ""

/-- Decomposed outcome of one structured model call as seen after
`generate_content` plus JSON parsing: the response was falsy
(`unavailable`), it failed to parse or validate (`parseFail`), or it
parsed into the fields of the structured schema. -/
inductive ModelResp where
  | unavailable
  | parseFail
  | parsed (relevant : Bool) (confidence : ℚ) (reasoning : String)
deriving DecidableEq, Repr

/-- Per-chunk evaluation verdict (`FilterAgent._evaluate_chunk` return value). -/
structure Verdict where
  relevant : Bool
  confidence : ℚ
  reasoning : String
deriving DecidableEq, Repr

/-- Clamp to the unit interval, `max(0.0, min(1.0, x))`
(`backend/agents/filter.py` line 163). -/
def clamp01 (q : ℚ) : ℚ := max 0 (min 1 q)

/-- FilterAgent._evaluate_chunk (`backend/agents/filter.py` lines 127-182),
after the generate call: a falsy response or any parse/validation error
yields the default verdict `{relevant: true, confidence: 0.5}`; a parsed
response has its confidence clamped to [0,1]. -/
def evaluateChunk (resp : ModelResp) : Verdict :=
  match resp with
  | .unavailable => ⟨true, 1/2, "Error in evaluation - defaulted to keeping chunk"⟩
  | .parseFail => ⟨true, 1/2, "JSON parse error"⟩
  | .parsed r c s => ⟨r, clamp01 c, s⟩

/-- One element of the `asyncio.gather(..., return_exceptions=True)` result
(`backend/agents/filter.py` line 52): either an exception that escaped the
per-chunk task, or the verdict `_evaluate_chunk` returned. -/
inductive EvalResult where
  | exn
  | ok (v : Verdict)
deriving DecidableEq, Repr

/-- Wrap an `_evaluate_chunk` outcome as a gather result. -/
def evalOf (m : ModelResp) : EvalResult := .ok (evaluateChunk m)

/-- One turn of the filter loop (`backend/agents/filter.py` lines 56-75):
an exception keeps the chunk with `agent_filtered = False` and
`relevance_score = chunk.get('score', 0.5)`; a verdict keeps the chunk iff
`relevant and confidence >= threshold`, recording the confidence. -/
def filterStep (threshold : ℚ) (ce : Chunk × EvalResult) : Option Chunk :=
  match ce.2 with
  | .exn =>
      some { ce.1 with
              agent_filtered := some false
              relevance_score := some (ce.1.score.getD (1/2)) }
  | .ok v =>
      if v.relevant && decide (threshold ≤ v.confidence) then
        some { ce.1 with
                agent_filtered := some true
                relevance_score := some v.confidence
                filter_reasoning := some v.reasoning }
      else
        none

/-- FilterAgent.filter (`backend/agents/filter.py` lines 18-78).  `evals`
is the list of gather results, one per chunk in order. -/
def FilterAgent.filter (enabled : Bool) (chunks : List Chunk) (threshold : ℚ)
    (evals : List EvalResult) : List Chunk :=
  if !enabled then chunks
  else if chunks.isEmpty then []
  else (chunks.zip evals).filterMap (filterStep threshold)

/-- Decomposed outcome of the single ranking call (`backend/agents/rank.py`):
falsy response, JSON/shape failure (including non-integer ids, whose
comparison raises `TypeError`), or a parsed `{ranked_ids, reasoning}`.
A missing `ranked_ids` key is `result.get('ranked_ids', [])`, i.e.
`parsed [] reasoning`. -/
inductive RankResp where
  | unavailable
  | parseFail
  | parsed (ranked_ids : List ℤ) (reasoning : String)
deriving DecidableEq, Repr

/-- Set `agent_rank` on a chunk dict. -/
def setRank (c : Chunk) (r : Nat) : Chunk := { c with agent_rank := some r }

/-- Sequential rank assignment used by every fallback path:
`for i, chunk in enumerate(chunks): chunk['agent_rank'] = i + 1`
(`backend/agents/rank.py` lines 37-38, 95-96, 140-141, 147-148). -/
def seqRank (chunks : List Chunk) : List Chunk :=
  chunks.mapIdx (fun i c => setRank c (i + 1))

/-- Python list indexing `chunks[i]` with an integer index: non-negative
indices are 0-based, negative indices count from the end, and an index
outside `[-len, len)` raises `IndexError` (modelled as `none`). -/
def pyGet (l : List Chunk) (i : ℤ) : Option Chunk :=
  if 0 ≤ i then l.get? i.toNat
  else if -(l.length : ℤ) ≤ i then l.get? ((l.length : ℤ) + i).toNat
  else none

/-- The reconstruction loop over `enumerate(ranked_ids)`
(`backend/agents/rank.py` lines 115-124): an id is accepted iff
`chunk_id < len(chunks)` and it is not in `used_ids`; an accepted id is
looked up with Python indexing (an `IndexError`, i.e. id below `-len`,
escapes as `none` and is caught by the outer handler), a copy of the
chunk gets `agent_rank = enumerate_index + 1` and the raw id is added to
`used_ids`. -/
def rankLoop (chunks : List Chunk) (reasoning : String) :
    List (Nat × ℤ) → List ℤ → List Chunk → Option (List Chunk × List ℤ)
  | [], used, acc => some (acc, used)
  | (idx, id) :: rest, used, acc =>
      if id < (chunks.length : ℤ) ∧ id ∉ used then
        match pyGet chunks id with
        | none => none
        | some c =>
            rankLoop chunks reasoning rest (id :: used)
              (acc ++ [{ c with agent_rank := some (idx + 1),
                                rank_reasoning := some reasoning }])
      else
        rankLoop chunks reasoning rest used acc

/-- The safety loop appending chunks whose index was never referenced
(`backend/agents/rank.py` lines 127-132): each gets
`agent_rank = len(ranked_chunks) + 1` at the moment of insertion. -/
def rankLeftover (chunks : List Chunk) (used : List ℤ) (acc : List Chunk) : List Chunk :=
  chunks.enum.foldl
    (fun a ic =>
      if (ic.1 : ℤ) ∈ used then a
      else a ++ [{ ic.2 with agent_rank := some (a.length + 1),
                             rank_reasoning := some "Not included in agent ranking" }])
    acc

/-- Result of a `RankAgent.rank` call: the returned list, the state of the
caller's chunk dicts after the call (the source mutates them in place on
the fallback paths and copies them on the successful parse path), and
whether `generate_content` was invoked. -/
structure RankOut where
  output : List Chunk
  inputAfter : List Chunk
  called : Bool
deriving DecidableEq, Repr

/-- RankAgent.rank (`backend/agents/rank.py` lines 17-149).  `resp` is the
decomposed outcome of the single ranking call; it is only consulted when a
call is actually made (adapter enabled and at least two chunks). -/
def RankAgent.rank (enabled : Bool) (chunks : List Chunk) (resp : RankResp) : RankOut :=
  if !enabled then
    let m := seqRank chunks
    ⟨m, m, false⟩
  else if chunks.isEmpty then ⟨[], [], false⟩
  else if chunks.length == 1 then
    let m := seqRank chunks
    ⟨m, m, false⟩
  else
    match resp with
    | .unavailable =>
        let m := seqRank chunks
        ⟨m, m, true⟩
    | .parseFail =>
        let m := seqRank chunks
        ⟨m, m, true⟩
    | .parsed ids reasoning =>
        match rankLoop chunks reasoning ids.enum [] [] with
        | none =>
            let m := seqRank chunks
            ⟨m, m, true⟩
        | some (acc, used) => ⟨rankLeftover chunks used acc, chunks, true⟩

/-- Python `int()` on a rational: truncation toward zero. -/
def ratTruncInt (q : ℚ) : ℤ := if 0 ≤ q then ⌊q⌋ else -⌊-q⌋

/-- Python string repetition `ch * n`: a non-positive count yields the
empty string. -/
def pyRepeat (ch : Char) (n : ℤ) : String := String.mk (List.replicate n.toNat ch)

/-- The star rating of the basic renderer (`backend/agents/format.py`
line 132): `'★' * int(relevance * 5) + '☆' * (5 - int(relevance * 5))`. -/
def stars (relevance : ℚ) : String :=
  pyRepeat '★' (ratTruncInt (relevance * 5)) ++
    pyRepeat '☆' (5 - ratTruncInt (relevance * 5))

/-- Round to the nearest integer, ties to even (the rounding of Python's
`format(x, '.2f')` applied to the scaled value). -/
def roundHalfEven (q : ℚ) : ℤ :=
  if q - ⌊q⌋ < 1/2 then ⌊q⌋
  else if 1/2 < q - ⌊q⌋ then ⌊q⌋ + 1
  else if 2 ∣ ⌊q⌋ then ⌊q⌋ else ⌊q⌋ + 1

/-- Python `f"{x:.2f}"` on a rational. -/
def fmt2 (q : ℚ) : String :=
  let m := roundHalfEven (q * 100)
  let sign := if m < 0 then "-" else ""
  let n := m.natAbs
  sign ++ toString (n / 100) ++ "." ++ (if n % 100 < 10 then "0" else "") ++
    toString (n % 100)

/-- The 50-character light separator `"─" * 50` of the basic renderer. -/
def sep50 : String := String.mk (List.replicate 50 '─')

/-- The heavy separator line of `_add_wrapper` (48 `━` characters). -/
def sep48 : String := String.mk (List.replicate 48 '━')

/-- Lines the basic renderer emits for one chunk
(`backend/agents/format.py` lines 122-152). -/
def formatBlock (include_context : Bool) (c : Chunk) : List String :=
  let rank := c.agent_rank.getD 0
  let relevance := c.relevance_score.getD 0
  let starStr := stars relevance
  let relStr := fmt2 relevance
  let title := c.title
  let text := c.text
  let citeStr := c.citation
  ([s!"[{rank}] {title}", sep50, s!"Relevance: {starStr} ({relStr})", ""] ++
    (if include_context then [s!"\"{text}\"", ""] else []) ++
    [s!"Citation: {citeStr}", "", sep50, ""])

/-- FormatAgent._add_wrapper (`backend/agents/format.py` lines 157-176). -/
def addWrapper (content : String) (count : Nat) : String :=
  sep48 ++ "\n📚 CITATION RESULTS (" ++ toString count ++ " citations)\n" ++
    sep48 ++ "\n\n" ++ content.trim ++ "\n\n" ++ sep48 ++
    "\nGenerated by gCite • cite-assist + Gemini AI\n" ++ sep48

/-- FormatAgent._format_basic (`backend/agents/format.py` lines 103-155).
The `style` argument is accepted and unused, as in the source. -/
def formatBasic (chunks : List Chunk) (style : String) (include_context : Bool) : String :=
  let _ := style
  addWrapper (String.intercalate "\n" (chunks.flatMap (formatBlock include_context)))
    chunks.length

/-- FormatAgent.format (`backend/agents/format.py` lines 17-101).  `resp`
is the outcome of the formatting call (`none` for a falsy response or an
exception inside the try block, both of which fall back to the basic
renderer). -/
def FormatAgent.format (enabled : Bool) (chunks : List Chunk) (style : String)
    (include_context : Bool) (resp : Option String) : String :=
  if chunks.isEmpty then "No citations found."
  else if !enabled then formatBasic chunks style include_context
  else
    match resp with
    | none => formatBasic chunks style include_context
    | some t => addWrapper t chunks.length

/-- A validated search request (`backend/api/models.py` lines 18-26).
Pydantic bounds (query length, `1 ≤ max_results ≤ 50`,
`0 ≤ min_relevance ≤ 1`) are enforced at the HTTP boundary before the
handler runs; they appear as hypotheses where a theorem needs them. -/
structure SearchRequest where
  query : String
  context : Option String := none
  max_results : Nat := 10
  citation_style : String := "APA"
  filter : Bool := true
  min_relevance : ℚ := 7/10
  include_context : Bool := true
deriving DecidableEq, Repr

/-- A response `Chunk` (`backend/api/models.py` lines 38-45) flattened to
the fields the pipeline sets; source metadata beyond title/citation is
omitted because no further code reads it. -/
structure RespChunk where
  id : String
  text : String
  title : String
  citation : String
  relevance_score : ℚ
  agent_filtered : Bool
  agent_rank : Nat
deriving DecidableEq, Repr

/-- The relevance value used when a response `Chunk` is constructed:
`chunk_data.get("relevance_score", chunk_data.get("score", 0.0))`
(`backend/api/routes.py` line 124). -/
def responseRelevance (c : Chunk) : ℚ := c.relevance_score.getD (c.score.getD 0)

/-- Build a response `Chunk` from a pipeline dict
(`backend/api/routes.py` lines 112-128). -/
def toRespChunk (c : Chunk) : RespChunk :=
  { id := c.chunk_id
    text := c.text
    title := c.title
    citation := c.citation
    relevance_score := responseRelevance c
    agent_filtered := c.agent_filtered.getD false
    agent_rank := c.agent_rank.getD 0 }

/-- Pydantic validation of the `relevance_score` field
(`ge=0.0, le=1.0`, `backend/api/models.py` line 43). -/
def validChunk (c : RespChunk) : Bool :=
  decide (0 ≤ c.relevance_score) && decide (c.relevance_score ≤ 1)

/-- The dict handed back to the format agent
(`backend/api/routes.py` lines 134-146): only `agent_rank`, `text`,
`metadata` and `relevance_score` keys are present. -/
def respChunkToDict (c : RespChunk) : Chunk :=
  { text := c.text
    title := c.title
    citation := c.citation
    relevance_score := some c.relevance_score
    agent_rank := some c.agent_rank }

/-- Mojibake heavy separator of `routes._format_basic` (the source file
stores these literals double-encoded): 48 repetitions of the two
characters U+00E2 U+201D. -/
def routesSepHeavy : String :=
  String.join (List.replicate 48 "â”")

/-- Mojibake light separator of `routes._format_basic`: 49 repetitions of
U+00E2 U+201D U+20AC. -/
def routesSepLight : String :=
  String.join (List.replicate 49 "â”€")

/-- The `_format_basic` helper of the route module
(`backend/api/routes.py` lines 176-211), used when the format agent is
disabled. -/
def routesFormatBasic (chunks : List RespChunk) (style : String) : String :=
  let _ := style
  if chunks.isEmpty then "No citations found."
  else
    let count := chunks.length
    let header :=
      [routesSepHeavy,
       s!"ğŸ“š CITATION RESULTS ({count} found)",
       routesSepHeavy,
       ""]
    let body := chunks.flatMap (fun c =>
      let rank := c.agent_rank
      let title := c.title
      let relStr := fmt2 c.relevance_score
      let text := c.text
      let citeStr := c.citation
      [s!"[{rank}] {title}",
       routesSepLight,
       s!"Relevance: {relStr}",
       "",
       s!"\"{text}\"",
       "",
       s!"Citation: {citeStr}",
       "",
       routesSepLight,
       ""])
    let footer :=
      [routesSepHeavy,
       "Generated by gCite â€¢ cite-assist semantic search",
       routesSepHeavy]
    String.intercalate "\n" (header ++ body ++ footer)

/-- The handler's response (`backend/api/models.py` lines 48-54) together
with flags recording which AI stages were invoked during the request
(`processing_time_ms` and the echoed query are omitted: wall-clock time is
outside the model and the query is returned verbatim). -/
structure SearchOutcome where
  results_count : Nat
  chunks : List RespChunk
  formatted_output : String
  filterInvoked : Bool
  rankInvoked : Bool
  formatInvoked : Bool
deriving DecidableEq, Repr

/-- The working chunk list after the optional filter stage and the
truncation to `max_results` (`backend/api/routes.py` lines 70-84). -/
def filteredOf (req : SearchRequest) (raw : List Chunk) (fEnabled : Bool)
    (evals : List EvalResult) : List Chunk :=
  (if req.filter && fEnabled then
      FilterAgent.filter true raw req.min_relevance evals
    else raw).take req.max_results

/-- The search handler `search_citations` (`backend/api/routes.py` lines
19-173).  `raw` is what the cite-assist collaborator returned (already
shaped as chunk dicts), and the remaining arguments supply each agent's
enabled flag and call outcome.  `Except.error` models the single
internal-error outcome (HTTP 500), raised here only by Pydantic
validation of a constructed `Chunk`. -/
def search_citations (req : SearchRequest) (raw : List Chunk)
    (fEnabled : Bool) (evals : List EvalResult)
    (rEnabled : Bool) (rresp : RankResp)
    (fmtEnabled : Bool) (fresp : Option String) : Except String SearchOutcome :=
  if raw.isEmpty then
    .ok ⟨0, [], "No results found. Try refining your query.", false, false, false⟩
  else
    let fInv := req.filter && fEnabled
    let filtered := filteredOf req raw fEnabled evals
    if filtered.isEmpty then
      .ok ⟨0, [],
        "No relevant citations found after filtering. Try broadening your query.",
        fInv, false, false⟩
    else
      let ranked :=
        if rEnabled then (RankAgent.rank true filtered rresp).output
        else seqRank filtered
      let respChunks := ranked.map toRespChunk
      if respChunks.all validChunk then
        let formatted :=
          if fmtEnabled then
            FormatAgent.format true (respChunks.map respChunkToDict)
              req.citation_style req.include_context fresp
          else routesFormatBasic respChunks req.citation_style
        .ok ⟨respChunks.length, respChunks, formatted, fInv, rEnabled, fmtEnabled⟩
      else
        .error "Search failed: validation error constructing response chunks"

/-- C7: for every chunk list, when the generative adapter is disabled,
`FilterAgent.filter` is the identity function: it returns the same chunks,
in the same order, with no chunk marked as `agent_filtered`. -/
theorem C7_filter_disabled_identity (chunks : List Chunk) (threshold : ℚ)
    (evals : List EvalResult) :
    FilterAgent.filter false chunks threshold evals = chunks := rfl

/-- C8: for every single-chunk input list, `RankAgent.rank` assigns
`agent_rank = 1` to that chunk and returns, without making any call to
the generative adapter (`called = false`), whatever the adapter flag and
whatever a call would have returned. -/
theorem C8_rank_single_chunk (enabled : Bool) (c : Chunk) (resp : RankResp) :
    RankAgent.rank enabled [c] resp = ⟨[setRank c 1], [setRank c 1], false⟩ := by
  cases enabled <;> rfl

/-- C9: for every citation style and every value of `include_context`, and
whether or not the adapter is enabled, `FormatAgent.format` on an empty
chunk list returns the fixed "no citations" sentinel string. -/
theorem C9_format_empty (enabled : Bool) (style : String) (include_context : Bool)
    (resp : Option String) :
    FormatAgent.format enabled [] style include_context resp = "No citations found." := by
  cases enabled <;> rfl

/-- C1 (code bug): the fail-open policy is violated.  A chunk whose
per-chunk evaluation fails with a falsy adapter response (and likewise a
parse failure) receives the default verdict `{relevant: true,
confidence: 0.5}` which is then pushed through the ordinary threshold
comparison, so at the default threshold 0.7 the chunk is dropped, not
kept; and at a threshold low enough to keep it, it is marked
`agent_filtered = True`, not `False`. -/
theorem C1_filter_drops_failed_evaluation :
    FilterAgent.filter true [{}] (7/10) [evalOf .unavailable] = [] ∧
    FilterAgent.filter true [{}] (7/10) [evalOf .parseFail] = [] ∧
    (FilterAgent.filter true [{}] (1/2) [evalOf .unavailable]).map
        (fun c => c.agent_filtered) = [some true] := by
  refine ⟨?_, ?_, ?_⟩ <;>
    simp [FilterAgent.filter, filterStep, evalOf, evaluateChunk] <;>
    norm_num

/-- C2 (code bug): the rank reconstruction does not guarantee a gap-free
permutation of the inputs.  With two chunks and the model reply
`ranked_ids = [2, 1, 0]`, the invalid id `2` consumes enumerate position
0, so the surviving chunks get `agent_rank` 2 and 3 — the multiset of
ranks is not `{1, 2}`.  With `ranked_ids = [-1]`, Python's negative
indexing accepts the id, it is recorded as used as `-1` rather than as
index 1, and the safety loop then appends chunk "b" a second time: three
output chunks from two inputs. -/
theorem C2_rank_not_always_permutation :
    ((RankAgent.rank true [{chunk_id := "a"}, {chunk_id := "b"}]
        (.parsed [2, 1, 0] "r")).output).map (fun c => c.agent_rank) =
      [some 2, some 3] ∧
    ((RankAgent.rank true [{chunk_id := "a"}, {chunk_id := "b"}]
        (.parsed [-1] "r")).output).map (fun c => c.chunk_id) =
      ["b", "a", "b"] := by
  constructor <;> decide

/-- C5 (counterexample): `generate_content` does not return `None` on an
empty response — a call that succeeds with the empty string is passed
through as `some ""`, not as the `None` signal. -/
theorem C5_counterexample_empty_response :
    BaseAgent.generate_content true (GenOutcome.text "") = some "" ∧
    BaseAgent.generate_content true (GenOutcome.text "") ≠ none := by
  refine ⟨rfl, ?_⟩
  simp [BaseAgent.generate_content]

/-- C5 (amended): `generate_content` returns `None`, rather than raising,
when the service is unconfigured or the underlying call raises; a
successful call's text is returned as-is, so an empty response comes back
as the empty string rather than `None` — and the `if not response_text`
truthiness test every caller applies treats exactly the raising and
empty-string outcomes as unavailable. -/
theorem C5_generate_content_unavailable :
    (∀ call, BaseAgent.generate_content false call = none) ∧
    BaseAgent.generate_content true .raises = none ∧
    (∀ s, BaseAgent.generate_content true (.text s) = some s) ∧
    (∀ call, isFalsy (BaseAgent.generate_content true call) = true ↔
      call = .raises ∨ call = .text "") := by
  refine ⟨fun call => rfl, rfl, fun s => rfl, fun call => ?_⟩
  cases call <;> simp [BaseAgent.generate_content, isFalsy]

/-- C4: for every `relevance_score` r already clamped to [0, 1], the basic
renderer's star rating is exactly 5 symbols: `⌊r * 5⌋` filled stars
followed by `5 - ⌊r * 5⌋` empty stars (Python's `int()` truncation agrees
with the floor on the non-negative values in range). -/
theorem C4_star_rating (r : ℚ) (h0 : 0 ≤ r) (h1 : r ≤ 1) :
    stars r = String.mk (List.replicate (⌊r * 5⌋).toNat '★' ++
      List.replicate (5 - (⌊r * 5⌋).toNat) '☆') ∧
    (stars r).length = 5 := by
  have h5 : (0:ℚ) ≤ r * 5 := by positivity
  have ht : ratTruncInt (r * 5) = ⌊r * 5⌋ := by simp [ratTruncInt, h5]
  have hub : ⌊r * 5⌋ ≤ 5 := by
    have hr5 : r * 5 ≤ 5 := by nlinarith
    calc ⌊r * 5⌋ ≤ ⌊(5:ℚ)⌋ := Int.floor_le_floor hr5
      _ = 5 := by norm_num
  have hlb : 0 ≤ ⌊r * 5⌋ := Int.floor_nonneg.mpr h5
  have happ : ∀ (a b : List Char), String.mk a ++ String.mk b = String.mk (a ++ b) :=
    fun a b => rfl
  have hsub : ((5 : ℤ) - ⌊r * 5⌋).toNat = 5 - (⌊r * 5⌋).toNat := by omega
  constructor
  · show pyRepeat '★' (ratTruncInt (r * 5)) ++ pyRepeat '☆' (5 - ratTruncInt (r * 5)) = _
    rw [ht]
    unfold pyRepeat
    rw [happ, hsub]
  · show (pyRepeat '★' (ratTruncInt (r * 5)) ++ pyRepeat '☆' (5 - ratTruncInt (r * 5))).length = 5
    rw [ht]
    unfold pyRepeat
    rw [happ]
    show (List.replicate (⌊r * 5⌋).toNat '★' ++ List.replicate ((5 - ⌊r * 5⌋).toNat) '☆').length = 5
    rw [List.length_append, List.length_replicate, List.length_replicate]
    omega

/-- Witness for C4 at the spec's example r = 0.8 (4 filled, 1 empty). -/
theorem C4_star_rating_witness :
    stars (4/5) = String.mk (List.replicate (⌊(4/5 : ℚ) * 5⌋).toNat '★' ++
      List.replicate (5 - (⌊(4/5 : ℚ) * 5⌋).toNat) '☆') ∧
    (stars (4/5)).length = 5 :=
  C4_star_rating (4/5) (by norm_num) (by norm_num)

/-- C3: when the search collaborator returns zero results the handler
responds with `results_count = 0`, an empty chunk list and the exact
message "No results found. Try refining your query.", all AI-stage
invocation flags false; when results existed but the filter stage removed
all of them the handler responds with `results_count = 0` and the
distinct "No relevant citations found after filtering. Try broadening
your query." message. -/
theorem C3_empty_result_responses :
    (∀ (req : SearchRequest) (fE : Bool) (evals : List EvalResult) (rE : Bool)
        (rr : RankResp) (fmtE : Bool) (fr : Option String),
      search_citations req [] fE evals rE rr fmtE fr =
        .ok ⟨0, [], "No results found. Try refining your query.",
          false, false, false⟩) ∧
    (∀ (req : SearchRequest) (raw : List Chunk) (fE : Bool)
        (evals : List EvalResult) (rE : Bool) (rr : RankResp) (fmtE : Bool)
        (fr : Option String),
      raw ≠ [] →
      filteredOf req raw fE evals = [] →
      search_citations req raw fE evals rE rr fmtE fr =
        .ok ⟨0, [],
          "No relevant citations found after filtering. Try broadening your query.",
          req.filter && fE, false, false⟩) ∧
    ("No results found. Try refining your query." ≠
      "No relevant citations found after filtering. Try broadening your query.") := by
  refine ⟨fun req fE evals rE rr fmtE fr => rfl, ?_, by decide⟩
  intro req raw fE evals rE rr fmtE fr hne hf
  have h1 : raw.isEmpty = false := by
    simp [List.isEmpty_iff, hne]
  simp only [search_citations, h1, Bool.false_eq_true, if_false, hf,
    List.isEmpty_nil, if_true]

/-- Witness for C3: one chunk from the collaborator, filter enabled at the
default threshold 0.7, evaluation falls back to the 0.5 default verdict
and the chunk is dropped, leaving the filtered set empty. -/
theorem C3_empty_result_responses_witness :
    search_citations { query := "q" } [{}] true [evalOf .unavailable]
        false .unavailable false none =
      .ok ⟨0, [],
        "No relevant citations found after filtering. Try broadening your query.",
        true, false, false⟩ := by
  have h := C3_empty_result_responses.2.1 { query := "q" } [{}] true
    [evalOf .unavailable] false .unavailable false none
    (by simp)
    (by simp [filteredOf, FilterAgent.filter, filterStep, evalOf, evaluateChunk]
        norm_num)
  simpa using h

/-- Every `_evaluate_chunk` result carries a confidence in [0, 1]: the
parsed branch clamps, the two fallback branches use 0.5. -/
lemma evaluateChunk_confidence_unit (m : ModelResp) :
    0 ≤ (evaluateChunk m).confidence ∧ (evaluateChunk m).confidence ≤ 1 := by
  cases m with
  | unavailable => norm_num [evaluateChunk]
  | parseFail => norm_num [evaluateChunk]
  | parsed r c s =>
      refine ⟨le_max_left 0 _, ?_⟩
      simp only [evaluateChunk, clamp01]
      exact max_le (by norm_num) (min_le_left 1 c)

/-- C6: relevance scores stay in [0, 1] — the filter stage clamps
model-reported confidence before storing it (second conjunct), every chunk
the filter returns has `relevance_score` in [0, 1] provided the
collaborator's similarity scores were (first conjunct), and the value the
response constructor picks (`relevance_score`, else `score`, else 0) is in
[0, 1] under the same assumptions (third conjunct). -/
theorem C6_relevance_unit_interval :
    (∀ (chunks : List Chunk) (evals : List EvalResult) (threshold : ℚ),
      (∀ c ∈ chunks, ∀ q, c.score = some q → 0 ≤ q ∧ q ≤ 1) →
      (∀ e ∈ evals, e = .exn ∨ ∃ m, e = evalOf m) →
      ∀ c ∈ FilterAgent.filter true chunks threshold evals,
        ∀ q, c.relevance_score = some q → 0 ≤ q ∧ q ≤ 1) ∧
    (∀ m, 0 ≤ (evaluateChunk m).confidence ∧ (evaluateChunk m).confidence ≤ 1) ∧
    (∀ c : Chunk,
      (∀ q, c.relevance_score = some q → 0 ≤ q ∧ q ≤ 1) →
      (∀ q, c.score = some q → 0 ≤ q ∧ q ≤ 1) →
      0 ≤ responseRelevance c ∧ responseRelevance c ≤ 1) := by
  refine ⟨?_, evaluateChunk_confidence_unit, ?_⟩
  · intro chunks evals threshold hscore hev c hc q hq
    by_cases hemp : chunks.isEmpty
    · simp [FilterAgent.filter, hemp] at hc
    · simp only [FilterAgent.filter, Bool.not_true, Bool.false_eq_true, if_false,
        hemp, List.mem_filterMap] at hc
      obtain ⟨⟨c0, e⟩, hmem, hstep⟩ := hc
      obtain ⟨hc0, he⟩ := List.of_mem_zip hmem
      cases e with
      | exn =>
          simp only [filterStep, Option.some_inj] at hstep
          subst hstep
          simp only at hq
          cases hs : c0.score with
          | none => simp [hs] at hq; subst hq; norm_num
          | some q0 =>
              simp [hs] at hq
              subst hq
              exact hscore c0 hc0 q0 hs
      | ok v =>
          simp only [filterStep] at hstep
          by_cases hcond : v.relevant && decide (threshold ≤ v.confidence)
          · rw [if_pos hcond, Option.some_inj] at hstep
            subst hstep
            simp only at hq
            rw [Option.some_inj] at hq
            subst hq
            rcases hev _ he with hexn | ⟨m, hm⟩
            · exact absurd hexn (by simp)
            · have hv : v = evaluateChunk m := by
                simpa [evalOf] using hm
              rw [hv]
              exact evaluateChunk_confidence_unit m
          · rw [if_neg hcond] at hstep
            exact absurd hstep (by simp)
  · intro c hrel hsc
    unfold responseRelevance
    cases hr : c.relevance_score with
    | some q => simpa using hrel q hr
    | none =>
        cases hs : c.score with
        | some q => simpa using hsc q hs
        | none => norm_num

/-- Witness for C6: a one-chunk list with similarity score 0.9, evaluated
with a falsy adapter response at threshold 0, so the chunk is kept with
the default confidence 0.5. -/
theorem C6_relevance_unit_interval_witness :
    (∀ c ∈ [({score := some (9/10)} : Chunk)],
      ∀ q, c.score = some q → 0 ≤ q ∧ q ≤ 1) ∧
    (∀ c ∈ FilterAgent.filter true [({score := some (9/10)} : Chunk)] 0
        [evalOf .unavailable],
      ∀ q, c.relevance_score = some q → 0 ≤ q ∧ q ≤ 1) := by
  have hscore : ∀ c ∈ [({score := some (9/10)} : Chunk)],
      ∀ q, c.score = some q → 0 ≤ q ∧ q ≤ 1 := by
    intro c hc q hq
    simp at hc
    subst hc
    simp at hq
    subst hq
    norm_num
  refine ⟨hscore, ?_⟩
  exact C6_relevance_unit_interval.1 _ _ 0 hscore
    (by intro e he
        simp at he
        subst he
        exact Or.inr ⟨.unavailable, rfl⟩)

/-- A Python index accepted by the reconstruction loop's guard and not
below `-len` can actually be looked up. -/
lemma pyGet_isSome (chunks : List Chunk) (id : ℤ)
    (hlt : id < (chunks.length : ℤ)) (hge : -(chunks.length : ℤ) ≤ id) :
    (pyGet chunks id).isSome := by
  unfold pyGet
  by_cases h0 : 0 ≤ id
  · rw [if_pos h0]
    have hn : id.toNat < chunks.length := by omega
    rw [List.get?_eq_get hn]
    rfl
  · rw [if_neg h0, if_pos hge]
    have hn : ((chunks.length : ℤ) + id).toNat < chunks.length := by omega
    rw [List.get?_eq_get hn]
    rfl

/-- When every id is at least `-len`, the reconstruction loop never hits
an `IndexError`. -/
lemma rankLoop_isSome (chunks : List Chunk) (reasoning : String) :
    ∀ (l : List (Nat × ℤ)) (used : List ℤ) (acc : List Chunk),
      (∀ p ∈ l, -(chunks.length : ℤ) ≤ p.2) →
      (rankLoop chunks reasoning l used acc).isSome := by
  intro l
  induction l with
  | nil => intro used acc _; rfl
  | cons p rest ih =>
      intro used acc h
      obtain ⟨idx, id⟩ := p
      rw [rankLoop]
      by_cases hcond : id < (chunks.length : ℤ) ∧ id ∉ used
      · rw [if_pos hcond]
        have hge : -(chunks.length : ℤ) ≤ id := h (idx, id) (List.mem_cons_self _ _)
        have hsome := pyGet_isSome chunks id hcond.1 hge
        cases hp : pyGet chunks id with
        | none => rw [hp] at hsome; simp at hsome
        | some c =>
            exact ih _ _ (fun p hp' => h p (List.mem_cons_of_mem _ hp'))
      · rw [if_neg hcond]
        exact ih _ _ (fun p hp' => h p (List.mem_cons_of_mem _ hp'))

/-- C10: `RankAgent.rank` has asymmetric effects on its input.  On a
successfully parsed verdict (no id below `-len`, so no `IndexError`) the
returned chunks are copies and the caller's dicts are untouched; on the
disabled, falsy-response and parse-failure fallback paths the caller's
dicts themselves receive `agent_rank` in place. -/
theorem C10_rank_mutation_asymmetry :
    (∀ (chunks : List Chunk) (ids : List ℤ) (reasoning : String),
      2 ≤ chunks.length →
      (∀ id ∈ ids, -(chunks.length : ℤ) ≤ id) →
      (RankAgent.rank true chunks (.parsed ids reasoning)).inputAfter = chunks) ∧
    (∀ (chunks : List Chunk) (resp : RankResp),
      (RankAgent.rank false chunks resp).inputAfter = seqRank chunks ∧
      (RankAgent.rank false chunks resp).output = seqRank chunks) ∧
    (∀ (chunks : List Chunk), 2 ≤ chunks.length →
      (RankAgent.rank true chunks .unavailable).inputAfter = seqRank chunks ∧
      (RankAgent.rank true chunks .unavailable).called = true) ∧
    (∀ (chunks : List Chunk), 2 ≤ chunks.length →
      (RankAgent.rank true chunks .parseFail).inputAfter = seqRank chunks ∧
      (RankAgent.rank true chunks .parseFail).called = true) := by
  have hbranch : ∀ (chunks : List Chunk), 2 ≤ chunks.length →
      chunks.isEmpty = false ∧ (chunks.length == 1) = false := by
    intro chunks h2
    constructor
    · cases chunks with
      | nil => simp at h2
      | cons a as => rfl
    · rw [beq_eq_false_iff_ne]
      omega
  refine ⟨?_, fun chunks resp => ⟨rfl, rfl⟩, ?_, ?_⟩
  · intro chunks ids reasoning h2 hids
    obtain ⟨he, hl⟩ := hbranch chunks h2
    have hsome := rankLoop_isSome chunks reasoning ids.enum [] []
      (fun p hp => hids p.2 (List.snd_mem_of_mem_enum hp))
    simp only [RankAgent.rank, Bool.not_true, Bool.false_eq_true, if_false, he, hl]
    cases hr : rankLoop chunks reasoning ids.enum [] [] with
    | none => rw [hr] at hsome; simp at hsome
    | some pr => obtain ⟨acc, used⟩ := pr; rfl
  · intro chunks h2
    obtain ⟨he, hl⟩ := hbranch chunks h2
    simp only [RankAgent.rank, Bool.not_true, Bool.false_eq_true, if_false, he, hl]
    exact ⟨trivial, trivial⟩
  · intro chunks h2
    obtain ⟨he, hl⟩ := hbranch chunks h2
    simp only [RankAgent.rank, Bool.not_true, Bool.false_eq_true, if_false, he, hl]
    exact ⟨trivial, trivial⟩

/-- Witness for C10: two chunks ranked by the verdict `[0, 1]` leave the
caller's dicts unchanged. -/
theorem C10_rank_mutation_asymmetry_witness :
    (RankAgent.rank true [{chunk_id := "a"}, {chunk_id := "b"}]
        (.parsed [0, 1] "r")).inputAfter =
      [{chunk_id := "a"}, {chunk_id := "b"}] :=
  C10_rank_mutation_asymmetry.1 [{chunk_id := "a"}, {chunk_id := "b"}] [0, 1] "r"
    (by decide) (by decide)

end GCite
